import Mathlib

/-!
Shallow embedding of the dialogue orchestration pipeline of `app3.py`
(the three LangGraph node functions `retrieve_memory_node`,
`prompt_guidance_node`, `chat_by_llm1_node` and the graph built by
`build_graph`).  External collaborators — the LangMem search tool, the two
ChatOpenAI models and the LangMem manage (create) tool — are modelled as an
oracle environment; each boundary call is recorded as an event so that call
order and side effects can be stated.
-/

/-- One Python value as far as the pipeline inspects it: a string or a
string-keyed dictionary.  Memory-search results are values of this shape. -/
inductive PyObj where
  | pyStr : String → PyObj
  | pyDict : List (String × PyObj) → PyObj

/-- The two Python exception kinds named in the `except (TypeError, KeyError)`
clause of `retrieve_memory_node`. -/
inductive PyErr where
  | typeError
  | keyError
  deriving DecidableEq

/-- Python subscripting `r[k]`: a missing key raises `KeyError`; subscripting a
string with a string key raises `TypeError`. -/
def PyObj.getItem : PyObj → String → Except PyErr PyObj
  | PyObj.pyStr _, _ => Except.error PyErr.typeError
  | PyObj.pyDict es, k =>
    match es.lookup k with
    | some v => Except.ok v
    | none => Except.error PyErr.keyError

/-- `"\n".join` demands string items; a non-string item raises `TypeError`. -/
def PyObj.asStr : PyObj → Except PyErr String
  | PyObj.pyStr s => Except.ok s
  | PyObj.pyDict _ => Except.error PyErr.typeError

mutual

/-- Python `repr` of the modelled values (dictionaries print their entries in
insertion order with quoted keys). -/
def pyReprOf : PyObj → String
  | PyObj.pyStr s => "\x27" ++ s ++ "\x27"
  | PyObj.pyDict es => "\x7b" ++ entriesReprOf es ++ "\x7d"

/-- `repr` of the entry list of a dictionary. -/
def entriesReprOf : List (String × PyObj) → String
  | [] => ""
  | [(k, v)] => "\x27" ++ k ++ "\x27: " ++ pyReprOf v
  | (k, v) :: e :: es => "\x27" ++ k ++ "\x27: " ++ pyReprOf v ++ ", " ++ entriesReprOf (e :: es)

end

/-- Python `str(r)` as used by the fallback `"\n".join(str(r) for r in
search_results)`: strings stringify to themselves, dictionaries to their
`repr`. -/
def pyStrOf : PyObj → String
  | PyObj.pyStr s => s
  | PyObj.pyDict es => "\x7b" ++ entriesReprOf es ++ "\x7d"

/-- The list comprehension `[r["value"]["content"] for r in search_results]`
(together with the join's string demand): first `TypeError`/`KeyError`
short-circuits. -/
def extractContent (r : PyObj) : Except PyErr String := do
  let v ← r.getItem "value"
  let c ← v.getItem "content"
  c.asStr

/-- Extract every fragment's content, or the first extraction error. -/
def contentsOf (rs : List PyObj) : Except PyErr (List String) :=
  rs.mapM extractContent

/-- `memory_text` as computed by `retrieve_memory_node`: the newline-join of
the extracted contents, falling back on `TypeError`/`KeyError` to the
newline-join of the raw stringified fragments. -/
def memoryText (rs : List PyObj) : String :=
  match contentsOf rs with
  | Except.ok cs => String.intercalate "\n" cs
  | Except.error _ => String.intercalate "\n" (rs.map pyStrOf)

/-- The sentinel stored when `memory_text` is falsy (empty):
`"関連する記憶はありません。"`. -/
def noMemorySentinel : String := "関連する記憶はありません。"

/-- `memory_text if memory_text else "関連する記憶はありません。"`. -/
def retrievedValue (rs : List PyObj) : String :=
  if memoryText rs = "" then noMemorySentinel else memoryText rs

/-- The constructor arguments of `ChatOpenAI(model=..., temperature=...)`. -/
structure ChatOpenAIConfig where
  model : String
  temperature : ℚ
  deriving DecidableEq

/-- `ChatOpenAI(model="gpt-4o", temperature=0.3)` — the planning model of
`prompt_guidance_node` (llm2). -/
def llm2_config : ChatOpenAIConfig := { model := "gpt-4o", temperature := 3/10 }

/-- `ChatOpenAI(model="gpt-4o", temperature=0.7)` — the response model of
`chat_by_llm1_node` (llm1). -/
def llm1_config : ChatOpenAIConfig := { model := "gpt-4o", temperature := 7/10 }

/-- The four declared fields of the `GraphState` dict class. -/
inductive GField where
  | input
  | retrieved_memory
  | llm1_prompt_instructions
  | response
  deriving DecidableEq

/-- The pipeline state: the `GraphState` dict.  A field holds `none` while no
node has written it yet (reading such a field raises `KeyError`). -/
structure GState where
  input : Option String := none
  retrieved_memory : Option String := none
  llm1_prompt_instructions : Option String := none
  response : Option String := none
  deriving DecidableEq

/-- Write one field of the state dict. -/
def setField (st : GState) : GField → String → GState
  | GField.input, v => { st with input := some v }
  | GField.retrieved_memory, v => { st with retrieved_memory := some v }
  | GField.llm1_prompt_instructions, v => { st with llm1_prompt_instructions := some v }
  | GField.response, v => { st with response := some v }

/-- Merge the dict a node returns into the state, as the LangGraph runtime
does (later keys win). -/
def applyUpdate (st : GState) (upd : List (GField × String)) : GState :=
  upd.foldl (fun s kv => setField s kv.fst kv.snd) st

/-- An observable boundary call: a memory search, a chat-model invocation
(with its configuration and prompt), or a memory-create attempt (with the
record content). -/
inductive Event where
  | search : String → Event
  | llmCall : ChatOpenAIConfig → String → Event
  | create : String → Event
  deriving DecidableEq

/-- How a run ends abnormally. -/
inductive RunErr where
  | keyError
  | storeUnavailable
  | llmFailure
  | graphError
  deriving DecidableEq

/-- The oracle environment standing for the external collaborators:
`search_tool.invoke`, `ChatOpenAI(...).invoke` (keyed by the model
configuration) and the create action of `manage_tool.invoke`.  An `error`
result models the collaborator raising. -/
structure Env where
  searchResults : String → Except Unit (List PyObj)
  invokeLLM : ChatOpenAIConfig → String → Except Unit String
  createResult : String → Except Unit Unit

/-- The prompt f-string of `prompt_guidance_node`. -/
def planningPrompt (inp mem : String) : String :=
  "\nユーザーの発言と記憶をもとに、以下のように出力してください：\n\n1. ユーザーへの語りかけスタイル\n2. 参考にする過去記憶（要約）\n3. LLM1への指示\n\n### ユーザーの発言:\n"
    ++ inp ++ "\n\n### 関連する記憶:\n" ++ mem ++ "\n"

/-- The persona prompt f-string of `chat_by_llm1_node`. -/
def personaPrompt (instr mem inp : String) : String :=
  "\nあなたは「ひびき」という名前のAIです。以下の人格を一貫して保ってください：\n- 優しく、思いやりのある語り口\n- ユーザーの気分や好みを覚えて、自然に会話に活かす\n- 過去の話題をそっと引き出して繋げる\n- 不安や悩みに寄り添う\n- 無理に励まさず、今に合わせて話す\n\n### 指示:\n"
    ++ instr ++ "\n\n### 記憶:\n" ++ mem ++ "\n\n### ユーザーの発言:\n" ++ inp
    ++ "\n\n### ひびきの応答:\n"

/-- The content written to the memory store:
`f"ユーザー: {state['input']}\nひびき: {response.content}"`. -/
def memoryRecordContent (inp reply : String) : String :=
  "ユーザー: " ++ inp ++ "\nひびき: " ++ reply

/-- Node 1, `retrieve_memory_node`: read `state["input"]`, call the search
tool, build `memory_text` (with the malformed-record fallback), and return
the update dict `{input, retrieved_memory, llm1_prompt_instructions: ""}`.
The returned events are the boundary calls the node performed. -/
def retrieve_memory_node (env : Env) (state : GState) :
    List Event × Except RunErr (List (GField × String)) :=
  match state.input with
  | none => ([], Except.error RunErr.keyError)
  | some user_input =>
    match env.searchResults user_input with
    | Except.error _ => ([Event.search user_input], Except.error RunErr.storeUnavailable)
    | Except.ok search_results =>
      ([Event.search user_input],
       Except.ok
         [(GField.input, user_input),
          (GField.retrieved_memory, retrievedValue search_results),
          (GField.llm1_prompt_instructions, "")])

/-- Node 2, `prompt_guidance_node`: build the planning prompt from
`state['input']` and `state['retrieved_memory']`, invoke llm2
(temperature 0.3), and return the update dict re-emitting `input` and
`retrieved_memory` and setting `llm1_prompt_instructions` to the raw model
output. -/
def prompt_guidance_node (env : Env) (state : GState) :
    List Event × Except RunErr (List (GField × String)) :=
  match state.input with
  | none => ([], Except.error RunErr.keyError)
  | some inp =>
    match state.retrieved_memory with
    | none => ([], Except.error RunErr.keyError)
    | some mem =>
      match env.invokeLLM llm2_config (planningPrompt inp mem) with
      | Except.error _ =>
        ([Event.llmCall llm2_config (planningPrompt inp mem)], Except.error RunErr.llmFailure)
      | Except.ok content =>
        ([Event.llmCall llm2_config (planningPrompt inp mem)],
         Except.ok
           [(GField.input, inp),
            (GField.retrieved_memory, mem),
            (GField.llm1_prompt_instructions, content)])

/-- Node 3, `chat_by_llm1_node`: build the persona prompt from
`state['llm1_prompt_instructions']`, `state['retrieved_memory']` and
`state['input']`, invoke llm1 (temperature 0.7), then call the manage tool
with `{content: "ユーザー: ...\nひびき: ...", action: "create"}`, and return
the update dict `{response, llm1_prompt_instructions}`.  A raising create
call aborts the node after the create attempt. -/
def chat_by_llm1_node (env : Env) (state : GState) :
    List Event × Except RunErr (List (GField × String)) :=
  match state.llm1_prompt_instructions with
  | none => ([], Except.error RunErr.keyError)
  | some instr =>
    match state.retrieved_memory with
    | none => ([], Except.error RunErr.keyError)
    | some mem =>
      match state.input with
      | none => ([], Except.error RunErr.keyError)
      | some inp =>
        match env.invokeLLM llm1_config (personaPrompt instr mem inp) with
        | Except.error _ =>
          ([Event.llmCall llm1_config (personaPrompt instr mem inp)],
           Except.error RunErr.llmFailure)
        | Except.ok content =>
          match env.createResult (memoryRecordContent inp content) with
          | Except.error _ =>
            ([Event.llmCall llm1_config (personaPrompt instr mem inp),
              Event.create (memoryRecordContent inp content)],
             Except.error RunErr.storeUnavailable)
          | Except.ok _ =>
            ([Event.llmCall llm1_config (personaPrompt instr mem inp),
              Event.create (memoryRecordContent inp content)],
             Except.ok
               [(GField.response, content),
                (GField.llm1_prompt_instructions, instr)])

/-- The node table registered by `build_graph` via `add_node`. -/
def graphNodes :
    List (String × (Env → GState → List Event × Except RunErr (List (GField × String)))) :=
  [("retrieve_memory", retrieve_memory_node),
   ("prompt_guidance", prompt_guidance_node),
   ("chat_by_llm1", chat_by_llm1_node)]

/-- The edge list registered by `build_graph` via `add_edge`
(`"END"` standing for the END marker). -/
def graphEdges : List (String × String) :=
  [("retrieve_memory", "prompt_guidance"),
   ("prompt_guidance", "chat_by_llm1"),
   ("chat_by_llm1", "END")]

/-- `set_entry_point("retrieve_memory")`. -/
def entryPoint : String := "retrieve_memory"

/-- Run the compiled graph from a named node: execute the node, merge its
returned dict into the state, and follow the unique outgoing edge until END.
Fuel bounds the walk; the graph is linear so fuel 4 reaches END.  The first
component collects every boundary call in order. -/
def execFrom (env : Env) : Nat → String → GState → List Event × Except RunErr GState
  | 0, _, _ => ([], Except.error RunErr.graphError)
  | Nat.succ fuel, name, st =>
    if name = "END" then ([], Except.ok st)
    else
      match graphNodes.lookup name with
      | none => ([], Except.error RunErr.graphError)
      | some node =>
        match node env st with
        | (ev, Except.error e) => (ev, Except.error e)
        | (ev, Except.ok upd) =>
          match graphEdges.lookup name with
          | none => (ev, Except.error RunErr.graphError)
          | some nxt =>
            let r := execFrom env fuel nxt (applyUpdate st upd)
            (ev ++ r.fst, r.snd)

/-- The initial state of `graph.invoke({"input": user_input})`. -/
def initState (u : String) : GState := { input := some u }

/-- `graph.invoke({"input": user_input})` on the compiled linear graph,
returning the ordered boundary-call trace and the final state (or the
propagated error). -/
def graphInvoke (env : Env) (user_input : String) : List Event × Except RunErr GState :=
  execFrom env 4 entryPoint (initState user_input)

/-- The contents of the memory-create attempts in a trace, in order. -/
def createdContents (tr : List Event) : List String :=
  tr.filterMap fun e =>
    match e with
    | Event.create c => some c
    | _ => none

/-- The model configurations of the chat-model invocations in a trace,
in order. -/
def llmConfigsOf (tr : List Event) : List ChatOpenAIConfig :=
  tr.filterMap fun e =>
    match e with
    | Event.llmCall cfg _ => some cfg
    | _ => none

/-- The fields a node's returned update dict writes. -/
def updateFields (upd : List (GField × String)) : List GField :=
  upd.map Prod.fst

/-- The worked-out straight-line form of one run of the compiled graph:
search, then the low-temperature planning call, then the high-temperature
response call, then the create attempt, each aborting the run on a raised
error. -/
def runPipeline (env : Env) (u : String) : List Event × Except RunErr GState :=
  match env.searchResults u with
  | Except.error _ => ([Event.search u], Except.error RunErr.storeUnavailable)
  | Except.ok rs =>
    match env.invokeLLM llm2_config (planningPrompt u (retrievedValue rs)) with
    | Except.error _ =>
      ([Event.search u, Event.llmCall llm2_config (planningPrompt u (retrievedValue rs))],
       Except.error RunErr.llmFailure)
    | Except.ok g =>
      match env.invokeLLM llm1_config (personaPrompt g (retrievedValue rs) u) with
      | Except.error _ =>
        ([Event.search u, Event.llmCall llm2_config (planningPrompt u (retrievedValue rs)),
          Event.llmCall llm1_config (personaPrompt g (retrievedValue rs) u)],
         Except.error RunErr.llmFailure)
      | Except.ok r =>
        ([Event.search u, Event.llmCall llm2_config (planningPrompt u (retrievedValue rs)),
          Event.llmCall llm1_config (personaPrompt g (retrievedValue rs) u),
          Event.create (memoryRecordContent u r)],
         match env.createResult (memoryRecordContent u r) with
         | Except.error _ => Except.error RunErr.storeUnavailable
         | Except.ok _ =>
           Except.ok { input := some u, retrieved_memory := some (retrievedValue rs),
                       llm1_prompt_instructions := some g, response := some r })

/-- Executing the compiled graph coincides with the straight-line run. -/
lemma graphInvoke_eq (env : Env) (u : String) : graphInvoke env u = runPipeline env u := by
  unfold graphInvoke runPipeline entryPoint initState
  cases hs : env.searchResults u with
  | error e =>
    simp [execFrom, graphNodes, graphEdges, retrieve_memory_node, hs]
  | ok rs =>
    cases h2 : env.invokeLLM llm2_config (planningPrompt u (retrievedValue rs)) with
    | error e2 =>
      simp [execFrom, graphNodes, graphEdges, List.lookup, retrieve_memory_node,
        prompt_guidance_node, applyUpdate, setField, hs, h2]
    | ok g =>
      cases h1 : env.invokeLLM llm1_config (personaPrompt g (retrievedValue rs) u) with
      | error e1 =>
        simp [execFrom, graphNodes, graphEdges, List.lookup, retrieve_memory_node,
          prompt_guidance_node, chat_by_llm1_node, applyUpdate, setField, hs, h2, h1]
      | ok r =>
        cases hc : env.createResult (memoryRecordContent u r) with
        | error ec =>
          simp [execFrom, graphNodes, graphEdges, List.lookup, retrieve_memory_node,
            prompt_guidance_node, chat_by_llm1_node, applyUpdate, setField, hs, h2, h1, hc]
        | ok uc =>
          simp [execFrom, graphNodes, graphEdges, List.lookup, retrieve_memory_node,
            prompt_guidance_node, chat_by_llm1_node, applyUpdate, setField, hs, h2, h1, hc]

/-- A well-formed search-result fragment `{"value": {"content": c}}`. -/
def wfFragment (c : String) : PyObj :=
  PyObj.pyDict [("value", PyObj.pyDict [("content", PyObj.pyStr c)])]

/-- A malformed fragment `{"value": "oops"}`: its `"content"` lookup raises
`TypeError`. -/
def badFragment : PyObj := PyObj.pyDict [("value", PyObj.pyStr "oops")]

/-- A deterministic chat-model oracle answering `"guidance"` to every
invocation. -/
def okLLM : ChatOpenAIConfig → String → Except Unit String :=
  fun _ _ => Except.ok "guidance"

/-- Environment: empty store, healthy models, healthy writes. -/
def envEmptyStore : Env :=
  { searchResults := fun _ => Except.ok [],
    invokeLLM := okLLM,
    createResult := fun _ => Except.ok () }

/-- Environment: the store holds two well-formed fragments `"a"`, `"b"`. -/
def envTwoFragments : Env :=
  { searchResults := fun _ => Except.ok [wfFragment "a", wfFragment "b"],
    invokeLLM := okLLM,
    createResult := fun _ => Except.ok () }

/-- Environment: one well-formed fragment whose content is the empty
string. -/
def envEmptyContent : Env :=
  { searchResults := fun _ => Except.ok [wfFragment ""],
    invokeLLM := okLLM,
    createResult := fun _ => Except.ok () }

/-- Environment: one malformed fragment. -/
def envMalformed : Env :=
  { searchResults := fun _ => Except.ok [badFragment],
    invokeLLM := okLLM,
    createResult := fun _ => Except.ok () }

/-- Environment: both chat models raise. -/
def envLLMFail : Env :=
  { searchResults := fun _ => Except.ok [],
    invokeLLM := fun _ _ => Except.error (),
    createResult := fun _ => Except.ok () }

/-- Environment: healthy search and models, but every memory write raises. -/
def envCreateFail : Env :=
  { searchResults := fun _ => Except.ok [],
    invokeLLM := okLLM,
    createResult := fun _ => Except.error () }

/-- Decidable equality of `Except` results. -/
instance {e a : Type} [DecidableEq e] [DecidableEq a] : DecidableEq (Except e a) := fun x y =>
  match x, y with
  | Except.ok v, Except.ok w =>
    if h : v = w then isTrue (by rw [h]) else isFalse (by simp [h])
  | Except.error v, Except.error w =>
    if h : v = w then isTrue (by rw [h]) else isFalse (by simp [h])
  | Except.ok _, Except.error _ => isFalse (by simp)
  | Except.error _, Except.ok _ => isFalse (by simp)

/-- The two model configurations differ (in temperature). -/
lemma llm_config_ne : llm1_config ≠ llm2_config := by
  simp only [llm1_config, llm2_config, ne_eq, ChatOpenAIConfig.mk.injEq, not_and]
  intro _
  norm_num

/-- C1 (counterexample): with an empty search result the code stores the
Japanese sentinel `"関連する記憶はありません。"`, which is not the literal
`"no related memory found"` the claim names. -/
theorem C1_counterexample :
    envEmptyStore.searchResults "hi" = Except.ok [] ∧
    (graphInvoke envEmptyStore "hi").snd =
      Except.ok { input := some "hi", retrieved_memory := some "関連する記憶はありません。",
                  llm1_prompt_instructions := some "guidance", response := some "guidance" } ∧
    ("関連する記憶はありません。" : String) ≠ "no related memory found" :=
  ⟨rfl, rfl, by decide⟩

/-- C1 (amended): whenever the newline-joined extracted contents form the
empty string (in particular when the search returns an empty sequence), the
retrieval stage sets `retrieved_memory` to exactly the sentinel
`"関連する記憶はありません。"`. -/
theorem C1_empty_search_sentinel (env : Env) (u : String) (rs : List PyObj)
    (hs : env.searchResults u = Except.ok rs) (hm : memoryText rs = "") :
    (retrieve_memory_node env (initState u)).snd =
      Except.ok
        [(GField.input, u),
         (GField.retrieved_memory, noMemorySentinel),
         (GField.llm1_prompt_instructions, "")] := by
  simp [retrieve_memory_node, initState, hs, retrievedValue, hm]

/-- C1 witness: the empty store at utterance `"hi"`. -/
theorem C1_empty_search_sentinel_witness :
    envEmptyStore.searchResults "hi" = Except.ok [] ∧
    memoryText [] = "" ∧
    (retrieve_memory_node envEmptyStore (initState "hi")).snd =
      Except.ok
        [(GField.input, "hi"),
         (GField.retrieved_memory, noMemorySentinel),
         (GField.llm1_prompt_instructions, "")] :=
  ⟨rfl, rfl, C1_empty_search_sentinel envEmptyStore "hi" [] rfl rfl⟩

/-- C2 (counterexample): a non-empty sequence of well-formed fragments whose
only content is the empty string joins to `""`, and the code then stores the
sentinel instead of the joined text. -/
theorem C2_counterexample :
    envEmptyContent.searchResults "hi" = Except.ok [wfFragment ""] ∧
    contentsOf [wfFragment ""] = Except.ok [""] ∧
    (retrieve_memory_node envEmptyContent (initState "hi")).snd =
      Except.ok
        [(GField.input, "hi"),
         (GField.retrieved_memory, noMemorySentinel),
         (GField.llm1_prompt_instructions, "")] ∧
    noMemorySentinel ≠ String.intercalate "\n" [""] :=
  ⟨rfl, rfl, rfl, by decide⟩

/-- C2 (amended): for every sequence of well-formed fragments whose
newline-joined contents are non-empty, the retrieval stage sets
`retrieved_memory` to the contents joined with newlines, preserving the
store's order. -/
theorem C2_join_wellformed (env : Env) (u : String) (rs : List PyObj) (cs : List String)
    (hs : env.searchResults u = Except.ok rs)
    (hw : contentsOf rs = Except.ok cs)
    (hne : String.intercalate "\n" cs ≠ "") :
    (retrieve_memory_node env (initState u)).snd =
      Except.ok
        [(GField.input, u),
         (GField.retrieved_memory, String.intercalate "\n" cs),
         (GField.llm1_prompt_instructions, "")] := by
  simp [retrieve_memory_node, initState, hs, retrievedValue, memoryText, hw, hne]

/-- C2 witness: fragments `[{value: {content: "a"}}, {value: {content: "b"}}]`
yield `"a\nb"`. -/
theorem C2_join_wellformed_witness :
    envTwoFragments.searchResults "hi" = Except.ok [wfFragment "a", wfFragment "b"] ∧
    contentsOf [wfFragment "a", wfFragment "b"] = Except.ok ["a", "b"] ∧
    String.intercalate "\n" ["a", "b"] = "a\nb" ∧
    (retrieve_memory_node envTwoFragments (initState "hi")).snd =
      Except.ok
        [(GField.input, "hi"),
         (GField.retrieved_memory, String.intercalate "\n" ["a", "b"]),
         (GField.llm1_prompt_instructions, "")] :=
  ⟨rfl, rfl, rfl,
   C2_join_wellformed envTwoFragments "hi" [wfFragment "a", wfFragment "b"] ["a", "b"]
     rfl rfl (by decide)⟩

/-- C8: if content extraction fails for a fragment, the retrieval stage falls
back to newline-joining the raw stringified fragments and still returns an
update (never an error) whose `retrieved_memory` is that fallback text (or
the sentinel if even the fallback is empty). -/
theorem C8_malformed_fallback (env : Env) (u : String) (rs : List PyObj) (e : PyErr)
    (hs : env.searchResults u = Except.ok rs)
    (he : contentsOf rs = Except.error e) :
    (retrieve_memory_node env (initState u)).snd =
      Except.ok
        [(GField.input, u),
         (GField.retrieved_memory,
          if String.intercalate "\n" (rs.map pyStrOf) = "" then noMemorySentinel
          else String.intercalate "\n" (rs.map pyStrOf)),
         (GField.llm1_prompt_instructions, "")] := by
  simp [retrieve_memory_node, initState, hs, retrievedValue, memoryText, he]

/-- C8 witness: the malformed fragment `{"value": "oops"}` raises
`TypeError` on extraction and is stringified to `"{'value': 'oops'}"`. -/
theorem C8_malformed_fallback_witness :
    envMalformed.searchResults "hi" = Except.ok [badFragment] ∧
    contentsOf [badFragment] = Except.error PyErr.typeError ∧
    String.intercalate "\n" ([badFragment].map pyStrOf) = "\x7b\x27value\x27: \x27oops\x27\x7d" ∧
    (retrieve_memory_node envMalformed (initState "hi")).snd =
      Except.ok
        [(GField.input, "hi"),
         (GField.retrieved_memory,
          if String.intercalate "\n" ([badFragment].map pyStrOf) = "" then noMemorySentinel
          else String.intercalate "\n" ([badFragment].map pyStrOf)),
         (GField.llm1_prompt_instructions, "")] :=
  ⟨rfl, rfl, rfl,
   C8_malformed_fallback envMalformed "hi" [badFragment] PyErr.typeError rfl rfl⟩

/-- C3 (counterexample): in a successful concrete run the single created
record's content is `"ユーザー: hi\nひびき: guidance"`, not the claimed
literal `"user: hi\nagent: guidance"` format. -/
theorem C3_counterexample :
    (graphInvoke envEmptyStore "hi").snd =
      Except.ok { input := some "hi", retrieved_memory := some noMemorySentinel,
                  llm1_prompt_instructions := some "guidance", response := some "guidance" } ∧
    createdContents (graphInvoke envEmptyStore "hi").fst = ["ユーザー: hi\nひびき: guidance"] ∧
    ("ユーザー: hi\nひびき: guidance" : String) ≠ "user: hi\nagent: guidance" :=
  ⟨rfl, rfl, by decide⟩

/-- C3 (amended): every successful run performs exactly one
MemoryStore.create call, and the created content is exactly
`"ユーザー: <utterance>\nひびき: <reply>"` built from the original utterance
and the produced reply. -/
theorem C3_single_create (env : Env) (u : String) (tr : List Event) (st : GState)
    (h : graphInvoke env u = (tr, Except.ok st)) :
    ∃ r, st.response = some r ∧ createdContents tr = [memoryRecordContent u r] := by
  rw [graphInvoke_eq] at h
  cases hs : env.searchResults u with
  | error e1 => simp [runPipeline, hs] at h
  | ok rs =>
    cases h2 : env.invokeLLM llm2_config (planningPrompt u (retrievedValue rs)) with
    | error e2 => simp [runPipeline, hs, h2] at h
    | ok g =>
      cases h1 : env.invokeLLM llm1_config (personaPrompt g (retrievedValue rs) u) with
      | error e3 => simp [runPipeline, hs, h2, h1] at h
      | ok r =>
        cases hc : env.createResult (memoryRecordContent u r) with
        | error e4 => simp [runPipeline, hs, h2, h1, hc] at h
        | ok uc =>
          simp only [runPipeline, hs, h2, h1, hc, Prod.mk.injEq, Except.ok.injEq] at h
          obtain ⟨htr, hst⟩ := h
          subst htr
          subst hst
          exact ⟨r, rfl, rfl⟩

/-- C3 witness: the successful run over the empty store at `"hi"`. -/
theorem C3_single_create_witness :
    ∃ r,
      ({ input := some "hi", retrieved_memory := some noMemorySentinel,
         llm1_prompt_instructions := some "guidance", response := some "guidance" } : GState).response
        = some r ∧
      createdContents (graphInvoke envEmptyStore "hi").fst = [memoryRecordContent "hi" r] :=
  C3_single_create envEmptyStore "hi" (graphInvoke envEmptyStore "hi").fst
    { input := some "hi", retrieved_memory := some noMemorySentinel,
      llm1_prompt_instructions := some "guidance", response := some "guidance" } rfl

/-- C7 (counterexample): with a failing memory write the reply (already
produced and embedded in the attempted record) is not returned: the run ends
in the store error instead of a final state. -/
theorem C7_counterexample :
    createdContents (graphInvoke envCreateFail "hi").fst = ["ユーザー: hi\nひびき: guidance"] ∧
    (graphInvoke envCreateFail "hi").snd = Except.error RunErr.storeUnavailable :=
  ⟨rfl, rfl⟩

/-- C7 (amended): when the post-reply memory write fails, the write was
attempted with the produced reply, and the run aborts with the store error —
the reply is not returned to the caller, and the outcome is distinct from a
successful run (an error rather than a final state). -/
theorem C7_write_failure_aborts (env : Env) (u : String) (rs : List PyObj) (g r : String)
    (hs : env.searchResults u = Except.ok rs)
    (h2 : env.invokeLLM llm2_config (planningPrompt u (retrievedValue rs)) = Except.ok g)
    (h1 : env.invokeLLM llm1_config (personaPrompt g (retrievedValue rs) u) = Except.ok r)
    (hc : env.createResult (memoryRecordContent u r) = Except.error ()) :
    (graphInvoke env u).snd = Except.error RunErr.storeUnavailable ∧
    createdContents (graphInvoke env u).fst = [memoryRecordContent u r] := by
  rw [graphInvoke_eq]
  simp [runPipeline, hs, h2, h1, hc, createdContents]

/-- C7 witness: the write-failing environment at `"hi"`. -/
theorem C7_write_failure_aborts_witness :
    (graphInvoke envCreateFail "hi").snd = Except.error RunErr.storeUnavailable ∧
    createdContents (graphInvoke envCreateFail "hi").fst = [memoryRecordContent "hi" "guidance"] :=
  C7_write_failure_aborts envCreateFail "hi" [] "guidance" "guidance" rfl rfl rfl rfl

/-- C10: in every successful run the final state is exactly: `input` the
original utterance, `retrieved_memory` the retrieval-stage text,
`llm1_prompt_instructions` the planning model's raw output (re-emitted
unchanged by the response stage), and `response` the response model's output
— no other field value. -/
theorem C10_final_state (env : Env) (u : String) (tr : List Event) (st : GState)
    (h : graphInvoke env u = (tr, Except.ok st)) :
    ∃ rs g r,
      env.searchResults u = Except.ok rs ∧
      env.invokeLLM llm2_config (planningPrompt u (retrievedValue rs)) = Except.ok g ∧
      env.invokeLLM llm1_config (personaPrompt g (retrievedValue rs) u) = Except.ok r ∧
      st = { input := some u, retrieved_memory := some (retrievedValue rs),
             llm1_prompt_instructions := some g, response := some r } := by
  rw [graphInvoke_eq] at h
  cases hs : env.searchResults u with
  | error e1 => simp [runPipeline, hs] at h
  | ok rs =>
    cases h2 : env.invokeLLM llm2_config (planningPrompt u (retrievedValue rs)) with
    | error e2 => simp [runPipeline, hs, h2] at h
    | ok g =>
      cases h1 : env.invokeLLM llm1_config (personaPrompt g (retrievedValue rs) u) with
      | error e3 => simp [runPipeline, hs, h2, h1] at h
      | ok r =>
        cases hc : env.createResult (memoryRecordContent u r) with
        | error e4 => simp [runPipeline, hs, h2, h1, hc] at h
        | ok uc =>
          simp only [runPipeline, hs, h2, h1, hc, Prod.mk.injEq, Except.ok.injEq] at h
          obtain ⟨htr, hst⟩ := h
          exact ⟨rs, g, r, rfl, h2, h1, hst.symm⟩

/-- C10 witness: the successful run over the empty store at `"hi"`. -/
theorem C10_final_state_witness :
    ∃ rs g r,
      envEmptyStore.searchResults "hi" = Except.ok rs ∧
      envEmptyStore.invokeLLM llm2_config (planningPrompt "hi" (retrievedValue rs)) = Except.ok g ∧
      envEmptyStore.invokeLLM llm1_config (personaPrompt g (retrievedValue rs) "hi") = Except.ok r ∧
      ({ input := some "hi", retrieved_memory := some noMemorySentinel,
         llm1_prompt_instructions := some "guidance", response := some "guidance" } : GState) =
        { input := some "hi", retrieved_memory := some (retrievedValue rs),
          llm1_prompt_instructions := some g, response := some r } :=
  C10_final_state envEmptyStore "hi" (graphInvoke envEmptyStore "hi").fst
    { input := some "hi", retrieved_memory := some noMemorySentinel,
      llm1_prompt_instructions := some "guidance", response := some "guidance" } rfl

/-- C4: if the planning-stage model call fails, the response model is never
invoked, no memory write is attempted and the run does not succeed; if the
response-stage model call fails, no memory write is attempted and the run
does not succeed. -/
theorem C4_no_write_on_llm_failure (env : Env) (u : String) :
    ((∀ p, env.invokeLLM llm2_config p = Except.error ()) →
       createdContents (graphInvoke env u).fst = [] ∧
       llm1_config ∉ llmConfigsOf (graphInvoke env u).fst ∧
       ∀ st, (graphInvoke env u).snd ≠ Except.ok st) ∧
    ((∀ p, env.invokeLLM llm1_config p = Except.error ()) →
       createdContents (graphInvoke env u).fst = [] ∧
       ∀ st, (graphInvoke env u).snd ≠ Except.ok st) := by
  rw [graphInvoke_eq]
  constructor
  · intro hfail
    cases hs : env.searchResults u with
    | error e1 => simp [runPipeline, hs, createdContents, llmConfigsOf]
    | ok rs =>
      have h2 := hfail (planningPrompt u (retrievedValue rs))
      simp [runPipeline, hs, h2, createdContents, llmConfigsOf, llm_config_ne]
  · intro hfail
    cases hs : env.searchResults u with
    | error e1 => simp [runPipeline, hs, createdContents]
    | ok rs =>
      cases h2 : env.invokeLLM llm2_config (planningPrompt u (retrievedValue rs)) with
      | error e2 => simp [runPipeline, hs, h2, createdContents]
      | ok g =>
        have h1 := hfail (personaPrompt g (retrievedValue rs) u)
        simp [runPipeline, hs, h2, h1, createdContents]

/-- C4 witness: the all-failing model environment at `"hi"` performs no
memory write and never reaches the response model. -/
theorem C4_no_write_on_llm_failure_witness :
    createdContents (graphInvoke envLLMFail "hi").fst = [] ∧
    llm1_config ∉ llmConfigsOf (graphInvoke envLLMFail "hi").fst :=
  ⟨((C4_no_write_on_llm_failure envLLMFail "hi").1 (fun _ => rfl)).1,
   ((C4_no_write_on_llm_failure envLLMFail "hi").1 (fun _ => rfl)).2.1⟩

/-- C5: every run's boundary-call trace is a prefix of the fixed sequence
search, planning call, response call, create — so the search happens before
the planning call before the response call, with no retries or reordering,
regardless of utterance — and a successful run executes the full sequence
with no skipped stage. -/
theorem C5_stage_order (env : Env) (u : String) :
    (∃ p1 p2 c rest,
        (graphInvoke env u).fst ++ rest =
          [Event.search u, Event.llmCall llm2_config p1,
           Event.llmCall llm1_config p2, Event.create c]) ∧
    (∀ tr st, graphInvoke env u = (tr, Except.ok st) →
        ∃ p1 p2 c,
          tr = [Event.search u, Event.llmCall llm2_config p1,
                Event.llmCall llm1_config p2, Event.create c]) := by
  rw [graphInvoke_eq]
  constructor
  · cases hs : env.searchResults u with
    | error e1 =>
      refine ⟨"", "", "",
        [Event.llmCall llm2_config "", Event.llmCall llm1_config "", Event.create ""], ?_⟩
      simp [runPipeline, hs]
    | ok rs =>
      cases h2 : env.invokeLLM llm2_config (planningPrompt u (retrievedValue rs)) with
      | error e2 =>
        refine ⟨planningPrompt u (retrievedValue rs), "", "",
          [Event.llmCall llm1_config "", Event.create ""], ?_⟩
        simp [runPipeline, hs, h2]
      | ok g =>
        cases h1 : env.invokeLLM llm1_config (personaPrompt g (retrievedValue rs) u) with
        | error e3 =>
          refine ⟨planningPrompt u (retrievedValue rs), personaPrompt g (retrievedValue rs) u,
            "", [Event.create ""], ?_⟩
          simp [runPipeline, hs, h2, h1]
        | ok r =>
          refine ⟨planningPrompt u (retrievedValue rs), personaPrompt g (retrievedValue rs) u,
            memoryRecordContent u r, [], ?_⟩
          simp [runPipeline, hs, h2, h1]
  · intro tr st h
    cases hs : env.searchResults u with
    | error e1 => simp [runPipeline, hs] at h
    | ok rs =>
      cases h2 : env.invokeLLM llm2_config (planningPrompt u (retrievedValue rs)) with
      | error e2 => simp [runPipeline, hs, h2] at h
      | ok g =>
        cases h1 : env.invokeLLM llm1_config (personaPrompt g (retrievedValue rs) u) with
        | error e3 => simp [runPipeline, hs, h2, h1] at h
        | ok r =>
          cases hc : env.createResult (memoryRecordContent u r) with
          | error e4 => simp [runPipeline, hs, h2, h1, hc] at h
          | ok uc =>
            simp only [runPipeline, hs, h2, h1, hc, Prod.mk.injEq, Except.ok.injEq] at h
            obtain ⟨htr, hst⟩ := h
            exact ⟨planningPrompt u (retrievedValue rs), personaPrompt g (retrievedValue rs) u,
              memoryRecordContent u r, htr.symm⟩

/-- C5 witness: the empty-store run at `"hi"` executes the full ordered
sequence. -/
theorem C5_stage_order_witness :
    ∃ p1 p2 c,
      (graphInvoke envEmptyStore "hi").fst =
        [Event.search "hi", Event.llmCall llm2_config p1,
         Event.llmCall llm1_config p2, Event.create c] :=
  (C5_stage_order envEmptyStore "hi").2 (graphInvoke envEmptyStore "hi").fst
    { input := some "hi", retrieved_memory := some noMemorySentinel,
      llm1_prompt_instructions := some "guidance", response := some "guidance" } rfl

/-- C6 (counterexample): in a concrete run the `llm1_prompt_instructions`
(guidance) field is written by the retrieval stage (initialised to `""`) and
written again by the planning stage — so it is not written by exactly one
stage. -/
theorem C6_counterexample :
    (retrieve_memory_node envEmptyStore (initState "hi")).snd =
      Except.ok
        [(GField.input, "hi"), (GField.retrieved_memory, noMemorySentinel),
         (GField.llm1_prompt_instructions, "")] ∧
    (prompt_guidance_node envEmptyStore
        { input := some "hi", retrieved_memory := some noMemorySentinel,
          llm1_prompt_instructions := some "" }).snd =
      Except.ok
        [(GField.input, "hi"), (GField.retrieved_memory, noMemorySentinel),
         (GField.llm1_prompt_instructions, "guidance")] ∧
    GField.llm1_prompt_instructions ∈
      updateFields
        [(GField.input, "hi"), (GField.retrieved_memory, noMemorySentinel),
         (GField.llm1_prompt_instructions, "")] ∧
    GField.llm1_prompt_instructions ∈
      updateFields
        [(GField.input, "hi"), (GField.retrieved_memory, noMemorySentinel),
         (GField.llm1_prompt_instructions, "guidance")] :=
  ⟨rfl, rfl, by decide, by decide⟩

/-- C6 (amended): the retrieval stage writes `input`, `retrieved_memory` and
a `""` placeholder for the guidance field; the planning stage re-emits
`input` and `retrieved_memory` unchanged and produces the guidance; the
response stage writes only `response` and re-emits the guidance unchanged;
each stage reads only fields produced upstream (retrieval depends only on
`input`; planning only on `input` and `retrieved_memory`; response only on
the three earlier fields); and `input` reaches the final state unchanged. -/
theorem C6_field_discipline (env : Env) (st : GState) :
    (∀ u upd, st.input = some u →
        (retrieve_memory_node env st).snd = Except.ok upd →
        updateFields upd =
          [GField.input, GField.retrieved_memory, GField.llm1_prompt_instructions] ∧
        upd.lookup GField.input = some u ∧
        upd.lookup GField.llm1_prompt_instructions = some "") ∧
    (∀ upd, (prompt_guidance_node env st).snd = Except.ok upd →
        updateFields upd =
          [GField.input, GField.retrieved_memory, GField.llm1_prompt_instructions] ∧
        upd.lookup GField.input = st.input ∧
        upd.lookup GField.retrieved_memory = st.retrieved_memory) ∧
    (∀ upd, (chat_by_llm1_node env st).snd = Except.ok upd →
        updateFields upd = [GField.response, GField.llm1_prompt_instructions] ∧
        upd.lookup GField.llm1_prompt_instructions = st.llm1_prompt_instructions) ∧
    (∀ st2 : GState, st.input = st2.input →
        retrieve_memory_node env st = retrieve_memory_node env st2) ∧
    (∀ st2 : GState, st.input = st2.input → st.retrieved_memory = st2.retrieved_memory →
        prompt_guidance_node env st = prompt_guidance_node env st2) ∧
    (∀ st2 : GState, st.input = st2.input → st.retrieved_memory = st2.retrieved_memory →
        st.llm1_prompt_instructions = st2.llm1_prompt_instructions →
        chat_by_llm1_node env st = chat_by_llm1_node env st2) ∧
    (∀ u tr stf, graphInvoke env u = (tr, Except.ok stf) → stf.input = some u) := by
  refine ⟨?_, ?_, ?_, ?_, ?_, ?_, ?_⟩
  · intro u upd hu hok
    cases hs : env.searchResults u with
    | error e1 => simp [retrieve_memory_node, hu, hs] at hok
    | ok rs =>
      simp only [retrieve_memory_node, hu, hs, Except.ok.injEq] at hok
      subst hok
      exact ⟨rfl, rfl, rfl⟩
  · intro upd hok
    cases hi : st.input with
    | none => simp [prompt_guidance_node, hi] at hok
    | some inp =>
      cases hm : st.retrieved_memory with
      | none => simp [prompt_guidance_node, hi, hm] at hok
      | some mem =>
        cases h2 : env.invokeLLM llm2_config (planningPrompt inp mem) with
        | error e2 => simp [prompt_guidance_node, hi, hm, h2] at hok
        | ok g =>
          simp only [prompt_guidance_node, hi, hm, h2, Except.ok.injEq] at hok
          subst hok
          exact ⟨rfl, rfl, rfl⟩
  · intro upd hok
    cases hg : st.llm1_prompt_instructions with
    | none => simp [chat_by_llm1_node, hg] at hok
    | some instr =>
      cases hm : st.retrieved_memory with
      | none => simp [chat_by_llm1_node, hg, hm] at hok
      | some mem =>
        cases hi : st.input with
        | none => simp [chat_by_llm1_node, hg, hm, hi] at hok
        | some inp =>
          cases h1 : env.invokeLLM llm1_config (personaPrompt instr mem inp) with
          | error e3 => simp [chat_by_llm1_node, hg, hm, hi, h1] at hok
          | ok r =>
            cases hc : env.createResult (memoryRecordContent inp r) with
            | error e4 => simp [chat_by_llm1_node, hg, hm, hi, h1, hc] at hok
            | ok uc =>
              simp only [chat_by_llm1_node, hg, hm, hi, h1, hc, Except.ok.injEq] at hok
              subst hok
              exact ⟨rfl, rfl⟩
  · intro st2 h
    simp only [retrieve_memory_node, h]
  · intro st2 h hm
    simp only [prompt_guidance_node, h, hm]
  · intro st2 h hm hg
    simp only [chat_by_llm1_node, h, hm, hg]
  · intro u tr stf h
    rw [graphInvoke_eq] at h
    cases hs : env.searchResults u with
    | error e1 => simp [runPipeline, hs] at h
    | ok rs =>
      cases h2 : env.invokeLLM llm2_config (planningPrompt u (retrievedValue rs)) with
      | error e2 => simp [runPipeline, hs, h2] at h
      | ok g =>
        cases h1 : env.invokeLLM llm1_config (personaPrompt g (retrievedValue rs) u) with
        | error e3 => simp [runPipeline, hs, h2, h1] at h
        | ok r =>
          cases hc : env.createResult (memoryRecordContent u r) with
          | error e4 => simp [runPipeline, hs, h2, h1, hc] at h
          | ok uc =>
            simp only [runPipeline, hs, h2, h1, hc, Prod.mk.injEq, Except.ok.injEq] at h
            obtain ⟨htr, hst⟩ := h
            rw [← hst]

/-- C6 witness: the retrieval update of the empty-store run at `"hi"`. -/
theorem C6_field_discipline_witness :
    updateFields
      [(GField.input, "hi"), (GField.retrieved_memory, noMemorySentinel),
       (GField.llm1_prompt_instructions, "")] =
      [GField.input, GField.retrieved_memory, GField.llm1_prompt_instructions] ∧
    List.lookup GField.input
      [(GField.input, "hi"), (GField.retrieved_memory, noMemorySentinel),
       (GField.llm1_prompt_instructions, "")] = some "hi" ∧
    List.lookup GField.llm1_prompt_instructions
      [(GField.input, "hi"), (GField.retrieved_memory, noMemorySentinel),
       (GField.llm1_prompt_instructions, "")] = some "" :=
  (C6_field_discipline envEmptyStore (initState "hi")).1 "hi"
    [(GField.input, "hi"), (GField.retrieved_memory, noMemorySentinel),
     (GField.llm1_prompt_instructions, "")] rfl rfl

/-- C9: the planning model is configured with the fixed low temperature 0.3
and the response model with the fixed, strictly higher temperature 0.7;
every run's model invocations use exactly these two constant configurations,
planning first. -/
theorem C9_temperatures :
    llm2_config.temperature = 3/10 ∧
    llm1_config.temperature = 7/10 ∧
    llm2_config.temperature < llm1_config.temperature ∧
    ∀ env u, ∃ rest,
      llmConfigsOf (graphInvoke env u).fst ++ rest = [llm2_config, llm1_config] := by
  refine ⟨by norm_num [llm2_config], by norm_num [llm1_config],
    by norm_num [llm2_config, llm1_config], ?_⟩
  intro env u
  rw [graphInvoke_eq]
  cases hs : env.searchResults u with
  | error e1 =>
    exact ⟨[llm2_config, llm1_config], by simp [runPipeline, hs, llmConfigsOf]⟩
  | ok rs =>
    cases h2 : env.invokeLLM llm2_config (planningPrompt u (retrievedValue rs)) with
    | error e2 => exact ⟨[llm1_config], by simp [runPipeline, hs, h2, llmConfigsOf]⟩
    | ok g =>
      cases h1 : env.invokeLLM llm1_config (personaPrompt g (retrievedValue rs) u) with
      | error e3 => exact ⟨[], by simp [runPipeline, hs, h2, h1, llmConfigsOf]⟩
      | ok r => exact ⟨[], by simp [runPipeline, hs, h2, h1, llmConfigsOf]⟩
